import Mathlib

/-!
# Verification of the mcp-Rally core: data transformer and error classifier

This development shallowly embeds the two core components of the repository:

* `DataTransformer` (src/data/DataTransformer.ts, reproduced in
  `examples/README.md`): bidirectional field-name and structural
  transformation between Rally's PascalCase/`_`/`c_` convention and the
  MCP kebab-case/`metadata-`/`custom-` convention.
* `ErrorHandler` (src/errors/ErrorHandler.ts with the declarative tables of
  src/errors/ErrorTypes.ts): classification of raw failures into the
  `MCPError` taxonomy with severity and recovery strategy.

Strings are modelled as `List Char` internally (wrapped into `String` at the
API boundary); all definitions are computable and mirror the TypeScript
source line by line. The JavaScript regular expressions used by the source
are simple enough (alternations of literals, and the two word-boundary rules)
to be reproduced exactly by character-level scans.
-/

namespace McpRally

/-- Boolean prefix test on character lists (JS `String.prototype.startsWith`). -/
def hasPrefixL : List Char → List Char → Bool
  | [], _ => true
  | _ :: _, [] => false
  | p :: ps, c :: cs => p == c && hasPrefixL ps cs

/-- Case-insensitive-free substring test on character lists
(JS `String.prototype.includes`; callers lowercase first where the source does). -/
def containsSub (needle : List Char) : List Char → Bool
  | [] => hasPrefixL needle []
  | c :: rest => hasPrefixL needle (c :: rest) || containsSub needle rest

/-- First replacement rule of `DataTransformer.camelToKebab`:
`.replace(/([A-Z]+)([A-Z][a-z])/g, '$1-$2')`.
A global greedy match of that pattern inserts a dash exactly before an
uppercase letter that is preceded by an uppercase letter and followed by a
lowercase letter. -/
def applyRule1 : List Char → List Char
  | a :: b :: c :: rest =>
    if a.isUpper && b.isUpper && c.isLower then
      a :: '-' :: applyRule1 (b :: c :: rest)
    else
      a :: applyRule1 (b :: c :: rest)
  | other => other

/-- Second replacement rule of `DataTransformer.camelToKebab`:
`.replace(/([a-z0-9])([A-Z])/g, '$1-$2')` — a dash between a
lowercase-or-digit character and an uppercase character. -/
def applyRule2 : List Char → List Char
  | a :: b :: rest =>
    if (a.isLower || a.isDigit) && b.isUpper then
      a :: '-' :: applyRule2 (b :: rest)
    else
      a :: applyRule2 (b :: rest)
  | other => other

/-- `DataTransformer.camelToKebab` on character lists: rule 1, then rule 2,
then `toLowerCase()`. -/
def camelToKebabL (cs : List Char) : List Char :=
  (applyRule2 (applyRule1 cs)).map Char.toLower

/-- `DataTransformer.camelToKebab`. -/
def camelToKebab (s : String) : String :=
  ⟨camelToKebabL s.data⟩

/-- The replacement loop of `DataTransformer.kebabToCamel`: every dash
followed by a lowercase letter is replaced by that letter uppercased
(the global regex `dash ([a-z])` with replacement `letter.toUpperCase()`),
applied to an already-lowercased string. -/
def kebabRaise : List Char → List Char
  | [] => []
  | [c] => [c]
  | a :: b :: rest =>
    if a == '-' && b.isLower then
      b.toUpper :: kebabRaise rest
    else
      a :: kebabRaise (b :: rest)

/-- `DataTransformer.kebabToCamel` on character lists: lowercase everything,
then raise the letter after each dash. -/
def kebabToCamelL (cs : List Char) : List Char :=
  kebabRaise (cs.map Char.toLower)

/-- `DataTransformer.kebabToPascal` on character lists: kebab-to-camel, then
uppercase the first character. -/
def kebabToPascalL (cs : List Char) : List Char :=
  match kebabToCamelL cs with
  | [] => []
  | c :: rest => c.toUpper :: rest

/-- `DataTransformer.kebabToPascal`. -/
def kebabToPascal (s : String) : String :=
  ⟨kebabToPascalL s.data⟩

/-- The `specialCases` table of `DataTransformer.kebabToRallySpecialCase`:
kebab form → exact Rally target form, in source order. -/
def specialCases : List (String × String) :=
  [ ("formatted-id", "FormattedID"),
    ("object-id", "ObjectID"),
    ("ref-object-uuid", "refObjectUUID"),
    ("ref-object-name", "refObjectName"),
    ("ref", "ref"),
    ("type", "type"),
    ("plan-estimate", "PlanEstimate"),
    ("schedule-state", "ScheduleState"),
    ("last-update-date", "LastUpdateDate"),
    ("creation-date", "CreationDate"),
    ("found-in-build", "FoundInBuild"),
    ("fixed-in-build", "FixedInBuild"),
    ("work-product", "WorkProduct"),
    ("to-do", "ToDo"),
    ("todo", "ToDo"),
    ("api-integration", "APIIntegration"),
    ("apiintegration", "APIIntegration"),
    ("custom-priority", "CustomPriority"),
    ("business-value", "BusinessValue"),
    ("my-custom-field", "MyCustomField") ]

/-- Property lookup in a JS object literal modelled as an association list
(keys are unique in every table of the source). -/
def lookupMap {β : Type} (m : List (String × β)) (key : String) : Option β :=
  (m.find? (fun e => e.1 == key)).map (fun e => e.2)

/-- `DataTransformer.kebabToRallySpecialCase`: exact table match first,
standard PascalCase reconstruction otherwise. -/
def kebabToRallySpecialCase (field : String) : String :=
  match lookupMap specialCases field with
  | some specialCase => specialCase
  | none => kebabToPascal field

/-- `DataTransformer.rallyFieldToMcp` on character lists: a leading `_`
becomes the `metadata-` prefix, a leading `c_` becomes the `custom-` prefix,
and the remainder (or a plain name) goes through `camelToKebab`. -/
def rallyFieldToMcpL (cs : List Char) : List Char :=
  if hasPrefixL ['_'] cs then
    "metadata-".data ++ camelToKebabL (cs.drop 1)
  else if hasPrefixL ['c', '_'] cs then
    "custom-".data ++ camelToKebabL (cs.drop 2)
  else
    camelToKebabL cs

/-- `DataTransformer.rallyFieldToMcp`. -/
def rallyFieldToMcp (s : String) : String :=
  ⟨rallyFieldToMcpL s.data⟩

/-- `DataTransformer.mcpFieldToRally` on character lists: the `metadata-`
prefix is stripped and `_` restored, the `custom-` prefix is stripped and
`c_` restored, and the remainder (or a plain name) goes through
`kebabToRallySpecialCase`. -/
def mcpFieldToRallyL (cs : List Char) : List Char :=
  if hasPrefixL "metadata-".data cs then
    '_' :: (kebabToRallySpecialCase ⟨cs.drop 9⟩).data
  else if hasPrefixL "custom-".data cs then
    'c' :: '_' :: (kebabToRallySpecialCase ⟨cs.drop 7⟩).data
  else
    (kebabToRallySpecialCase ⟨cs⟩).data

/-- `DataTransformer.mcpFieldToRally`. -/
def mcpFieldToRally (s : String) : String :=
  ⟨mcpFieldToRallyL s.data⟩

/-- A JSON-like record: primitives, arrays, and objects (insertion-ordered
key/value lists, as JavaScript objects are enumerated by `Object.entries`). -/
inductive Rec where
  | null : Rec
  | bool : Bool → Rec
  | num : Int → Rec
  | str : String → Rec
  | arr : List Rec → Rec
  | obj : List (String × Rec) → Rec

/-- JS property assignment `transformed[key] = value`: overwrite in place if
the key exists, append otherwise. -/
def insertEntry (k : String) (v : Rec) : List (String × Rec) → List (String × Rec)
  | [] => [(k, v)]
  | (k', v') :: rest =>
    if k' == k then (k', v) :: rest else (k', v') :: insertEntry k v rest

/-- Building a JS object by assigning the given entries in order. -/
def buildObj (entries : List (String × Rec)) : List (String × Rec) :=
  entries.foldl (fun acc e => insertEntry e.1 e.2 acc) []

mutual

/-- `DataTransformer.rallyToMcp`: primitives are returned as-is, arrays map
elementwise, and object keys go through `rallyFieldToMcp` while object and
array values recurse (a primitive value is untouched by the recursive call,
matching the source's `typeof value === 'object'` guard). -/
def rallyToMcp : Rec → Rec
  | .arr items => .arr (rallyToMcpList items)
  | .obj entries => .obj (buildObj (rallyToMcpEntries entries))
  | prim => prim

/-- Elementwise `rallyToMcp` over an array (`data.map(item => this.rallyToMcp(item))`). -/
def rallyToMcpList : List Rec → List Rec
  | [] => []
  | r :: rs => rallyToMcp r :: rallyToMcpList rs

/-- The `Object.entries` loop of `rallyToMcp`. -/
def rallyToMcpEntries : List (String × Rec) → List (String × Rec)
  | [] => []
  | (k, v) :: rest => (rallyFieldToMcp k, rallyToMcp v) :: rallyToMcpEntries rest

end

mutual

/-- `DataTransformer.mcpToRally`: the inverse-direction structural walk,
with keys going through `mcpFieldToRally`. -/
def mcpToRally : Rec → Rec
  | .arr items => .arr (mcpToRallyList items)
  | .obj entries => .obj (buildObj (mcpToRallyEntries entries))
  | prim => prim

/-- Elementwise `mcpToRally` over an array. -/
def mcpToRallyList : List Rec → List Rec
  | [] => []
  | r :: rs => mcpToRally r :: mcpToRallyList rs

/-- The `Object.entries` loop of `mcpToRally`. -/
def mcpToRallyEntries : List (String × Rec) → List (String × Rec)
  | [] => []
  | (k, v) :: rest => (mcpFieldToRally k, mcpToRally v) :: mcpToRallyEntries rest

end

/-! ## Error taxonomy (src/errors/ErrorTypes.ts) -/

/-- The `MCPErrorType` enum of ErrorTypes.ts. -/
inductive MCPErrorType where
  | VALIDATION_ERROR
  | SCHEMA_VALIDATION_ERROR
  | FIELD_VALIDATION_ERROR
  | AUTHENTICATION_ERROR
  | API_KEY_INVALID
  | API_KEY_EXPIRED
  | PERMISSION_ERROR
  | UNAUTHORIZED_OPERATION
  | RALLY_API_ERROR
  | RALLY_SERVER_ERROR
  | RALLY_SERVICE_UNAVAILABLE
  | RALLY_RATE_LIMIT
  | RALLY_WORKSPACE_ERROR
  | RALLY_PROJECT_ERROR
  | NOT_FOUND_ERROR
  | RESOURCE_LOCKED
  | RESOURCE_CONFLICT
  | RESOURCE_DELETED
  | NETWORK_ERROR
  | CONNECTION_TIMEOUT
  | DNS_RESOLUTION_ERROR
  | SSL_CERTIFICATE_ERROR
  | PROXY_ERROR
  | SERVICE_DEGRADED
  | SERVICE_OVERLOAD
  | CIRCUIT_BREAKER_OPEN
  | RESOURCE_EXHAUSTION
  | CONFIGURATION_ERROR
  | MCP_PROTOCOL_ERROR
  | TRANSPORT_ERROR
  | SERIALIZATION_ERROR
  | DATA_TRANSFORMATION_ERROR
  | FIELD_MAPPING_ERROR
  | DATA_CORRUPTION_ERROR
  | INTERNAL_ERROR
  | UNEXPECTED_ERROR
deriving DecidableEq, BEq, Repr

/-- The `ErrorSeverity` enum. -/
inductive ErrorSeverity where
  | LOW
  | MEDIUM
  | HIGH
  | CRITICAL
deriving DecidableEq, BEq, Repr

/-- The `RecoveryStrategy` enum. -/
inductive RecoveryStrategy where
  | RETRY
  | RETRY_WITH_BACKOFF
  | CIRCUIT_BREAKER
  | FALLBACK
  | GRACEFUL_DEGRADATION
  | FAIL_FAST
  | USER_INTERVENTION
deriving DecidableEq, BEq, Repr

/-- The `RecoveryOptions` interface. The `backoffMultiplier` (1.5 or 2 in the
source) is modelled as a rational number to avoid floating point. -/
structure RecoveryOptions where
  strategy : RecoveryStrategy
  maxRetries : Option Nat := none
  retryDelayMs : Option Nat := none
  backoffMultiplier : Option Rat := none
  circuitBreakerThreshold : Option Nat := none
  userMessage : Option String := none
deriving DecidableEq, Repr

/-- One value of the `RALLY_ERROR_MAPPINGS` table. -/
structure RallyMapping where
  type : MCPErrorType
  severity : ErrorSeverity
  recovery : RecoveryStrategy
deriving DecidableEq, Repr

/-- The `RALLY_ERROR_MAPPINGS` table: Rally status / error code →
(type, severity, recovery), in source order. JavaScript's `Object.values`
enumerates the integer-like keys first (numerically ascending) and then the
string keys in insertion order; for every error type with more than one row,
the first row by type is the same under both orders (in particular
`INVALID_WORKSPACE` precedes `WORKSPACE_ACCESS_DENIED` in both), so the
find-first lookups below are insensitive to the difference. -/
def RALLY_ERROR_MAPPINGS : List (String × RallyMapping) :=
  [ ("401", ⟨.AUTHENTICATION_ERROR, .HIGH, .USER_INTERVENTION⟩),
    ("INVALID_KEY", ⟨.API_KEY_INVALID, .HIGH, .USER_INTERVENTION⟩),
    ("EXPIRED_KEY", ⟨.API_KEY_EXPIRED, .HIGH, .USER_INTERVENTION⟩),
    ("403", ⟨.PERMISSION_ERROR, .HIGH, .USER_INTERVENTION⟩),
    ("INSUFFICIENT_PERMISSIONS", ⟨.UNAUTHORIZED_OPERATION, .MEDIUM, .USER_INTERVENTION⟩),
    ("404", ⟨.NOT_FOUND_ERROR, .MEDIUM, .FAIL_FAST⟩),
    ("OBJECT_NOT_FOUND", ⟨.NOT_FOUND_ERROR, .MEDIUM, .FAIL_FAST⟩),
    ("OBJECT_DELETED", ⟨.RESOURCE_DELETED, .MEDIUM, .FAIL_FAST⟩),
    ("422", ⟨.VALIDATION_ERROR, .MEDIUM, .FAIL_FAST⟩),
    ("VALIDATION_FAILED", ⟨.FIELD_VALIDATION_ERROR, .MEDIUM, .FAIL_FAST⟩),
    ("INVALID_FIELD", ⟨.FIELD_VALIDATION_ERROR, .MEDIUM, .FAIL_FAST⟩),
    ("500", ⟨.RALLY_SERVER_ERROR, .HIGH, .RETRY_WITH_BACKOFF⟩),
    ("502", ⟨.RALLY_SERVICE_UNAVAILABLE, .HIGH, .CIRCUIT_BREAKER⟩),
    ("503", ⟨.RALLY_SERVICE_UNAVAILABLE, .HIGH, .CIRCUIT_BREAKER⟩),
    ("504", ⟨.CONNECTION_TIMEOUT, .HIGH, .RETRY_WITH_BACKOFF⟩),
    ("429", ⟨.RALLY_RATE_LIMIT, .MEDIUM, .RETRY_WITH_BACKOFF⟩),
    ("RATE_LIMIT_EXCEEDED", ⟨.RALLY_RATE_LIMIT, .MEDIUM, .RETRY_WITH_BACKOFF⟩),
    ("INVALID_WORKSPACE", ⟨.RALLY_WORKSPACE_ERROR, .MEDIUM, .USER_INTERVENTION⟩),
    ("INVALID_PROJECT", ⟨.RALLY_PROJECT_ERROR, .MEDIUM, .USER_INTERVENTION⟩),
    ("WORKSPACE_ACCESS_DENIED", ⟨.RALLY_WORKSPACE_ERROR, .HIGH, .USER_INTERVENTION⟩) ]

/-- One entry of `NETWORK_ERROR_PATTERNS`. Each source regex is a
case-insensitive alternation of literal fragments; `alternatives` lists those
fragments lowercased, so that `testPattern` reproduces `pattern.test(s)`. -/
structure ErrorPattern where
  errorType : MCPErrorType
  alternatives : List String
  severity : ErrorSeverity
  recovery : RecoveryOptions
  description : String

/-- `pattern.test(s)` for the case-insensitive alternation patterns of
`NETWORK_ERROR_PATTERNS`. -/
def testPattern (p : ErrorPattern) (s : String) : Bool :=
  p.alternatives.any (fun a => containsSub a.data (s.data.map Char.toLower))

/-- The `NETWORK_ERROR_PATTERNS` table, in source order. -/
def NETWORK_ERROR_PATTERNS : List ErrorPattern :=
  [ { errorType := .CONNECTION_TIMEOUT,
      alternatives := ["timeout", "etimedout"],
      severity := .MEDIUM,
      recovery := { strategy := .RETRY_WITH_BACKOFF, maxRetries := some 3,
                    retryDelayMs := some 1000, backoffMultiplier := some 2 },
      description := "Connection timeout - retry with exponential backoff" },
    { errorType := .DNS_RESOLUTION_ERROR,
      alternatives := ["enotfound", "getaddrinfo", "dns"],
      severity := .HIGH,
      recovery := { strategy := .CIRCUIT_BREAKER, circuitBreakerThreshold := some 5 },
      description := "DNS resolution failure - check network connectivity" },
    { errorType := .NETWORK_ERROR,
      alternatives := ["econnrefused", "econnreset", "epipe"],
      severity := .HIGH,
      recovery := { strategy := .RETRY_WITH_BACKOFF, maxRetries := some 3,
                    retryDelayMs := some 2000, backoffMultiplier := some 2 },
      description := "Network connection error - retry with backoff" },
    { errorType := .SSL_CERTIFICATE_ERROR,
      alternatives := ["certificate", "ssl", "tls", "cert_"],
      severity := .CRITICAL,
      recovery := { strategy := .USER_INTERVENTION,
                    userMessage := some "SSL certificate validation failed. Check server certificate." },
      description := "SSL certificate validation error - requires manual intervention" } ]

/-- The `DEFAULT_RECOVERY_OPTIONS` record: a total map from error type to
recovery options. -/
def DEFAULT_RECOVERY_OPTIONS : MCPErrorType → RecoveryOptions
  | .VALIDATION_ERROR => { strategy := .FAIL_FAST }
  | .SCHEMA_VALIDATION_ERROR => { strategy := .FAIL_FAST }
  | .FIELD_VALIDATION_ERROR => { strategy := .FAIL_FAST }
  | .AUTHENTICATION_ERROR => { strategy := .USER_INTERVENTION }
  | .API_KEY_INVALID => { strategy := .USER_INTERVENTION }
  | .API_KEY_EXPIRED => { strategy := .USER_INTERVENTION }
  | .PERMISSION_ERROR => { strategy := .USER_INTERVENTION }
  | .UNAUTHORIZED_OPERATION => { strategy := .USER_INTERVENTION }
  | .RALLY_API_ERROR =>
      { strategy := .RETRY_WITH_BACKOFF, maxRetries := some 3,
        retryDelayMs := some 1000, backoffMultiplier := some 2 }
  | .RALLY_SERVER_ERROR =>
      { strategy := .RETRY_WITH_BACKOFF, maxRetries := some 3,
        retryDelayMs := some 2000, backoffMultiplier := some 2 }
  | .RALLY_SERVICE_UNAVAILABLE =>
      { strategy := .CIRCUIT_BREAKER, circuitBreakerThreshold := some 5 }
  | .RALLY_RATE_LIMIT =>
      { strategy := .RETRY_WITH_BACKOFF, maxRetries := some 5,
        retryDelayMs := some 5000, backoffMultiplier := some 2 }
  | .RALLY_WORKSPACE_ERROR => { strategy := .USER_INTERVENTION }
  | .RALLY_PROJECT_ERROR => { strategy := .USER_INTERVENTION }
  | .NOT_FOUND_ERROR => { strategy := .FAIL_FAST }
  | .RESOURCE_LOCKED =>
      { strategy := .RETRY_WITH_BACKOFF, maxRetries := some 3,
        retryDelayMs := some 5000, backoffMultiplier := some ((3 : Rat) / 2) }
  | .RESOURCE_CONFLICT =>
      { strategy := .RETRY, maxRetries := some 2, retryDelayMs := some 1000 }
  | .RESOURCE_DELETED => { strategy := .FAIL_FAST }
  | .NETWORK_ERROR =>
      { strategy := .RETRY_WITH_BACKOFF, maxRetries := some 3,
        retryDelayMs := some 1000, backoffMultiplier := some 2 }
  | .CONNECTION_TIMEOUT =>
      { strategy := .RETRY_WITH_BACKOFF, maxRetries := some 3,
        retryDelayMs := some 2000, backoffMultiplier := some 2 }
  | .DNS_RESOLUTION_ERROR =>
      { strategy := .CIRCUIT_BREAKER, circuitBreakerThreshold := some 5 }
  | .SSL_CERTIFICATE_ERROR => { strategy := .USER_INTERVENTION }
  | .PROXY_ERROR =>
      { strategy := .RETRY_WITH_BACKOFF, maxRetries := some 3,
        retryDelayMs := some 1000, backoffMultiplier := some 2 }
  | .SERVICE_DEGRADED => { strategy := .GRACEFUL_DEGRADATION }
  | .SERVICE_OVERLOAD => { strategy := .CIRCUIT_BREAKER, circuitBreakerThreshold := some 3 }
  | .CIRCUIT_BREAKER_OPEN => { strategy := .GRACEFUL_DEGRADATION }
  | .RESOURCE_EXHAUSTION => { strategy := .CIRCUIT_BREAKER, circuitBreakerThreshold := some 2 }
  | .CONFIGURATION_ERROR => { strategy := .USER_INTERVENTION }
  | .MCP_PROTOCOL_ERROR => { strategy := .FAIL_FAST }
  | .TRANSPORT_ERROR =>
      { strategy := .RETRY_WITH_BACKOFF, maxRetries := some 3,
        retryDelayMs := some 1000, backoffMultiplier := some 2 }
  | .SERIALIZATION_ERROR => { strategy := .FAIL_FAST }
  | .DATA_TRANSFORMATION_ERROR => { strategy := .FAIL_FAST }
  | .FIELD_MAPPING_ERROR => { strategy := .FAIL_FAST }
  | .DATA_CORRUPTION_ERROR => { strategy := .FAIL_FAST }
  | .INTERNAL_ERROR => { strategy := .RETRY, maxRetries := some 1, retryDelayMs := some 1000 }
  | .UNEXPECTED_ERROR => { strategy := .FAIL_FAST }

/-! ## Error handler (src/errors/ErrorHandler.ts)

`ErrorHandler.handleError` dispatches on the dynamic shape of its `unknown`
argument, in this order: a JavaScript `Error` instance goes to
`processError`, otherwise a value with `isAxiosError === true` goes to
`processAxiosError`, and everything else goes to `processUnknownError`.
The `instanceof Error` test comes first, so an `Error` instance that also
carries axios fields — the shape axios itself throws, since `AxiosError`
extends `Error` — is routed to `processError`, which classifies by name and
message only and ignores any attached HTTP response. The model therefore
lets the error-instance shape carry the axios payload (unused by the code)
so that response-bearing failures of both shapes are representable.

The source can throw while inspecting malformed failures: with a truthy
response lacking a numeric status, `response.status.toString()` throws a
TypeError, and `String(error)` throws for an object that cannot be converted
to a primitive (for instance a null-prototype object). `handleError` has no
catch-all, so those exceptions propagate; the fallible paths are modelled
with `Except`, whose error value describes the JavaScript exception.

Environmental fields (timestamps, uuid generation, stack traces, the logger,
the mutable metrics counters and the bounded history) are side channels that
do not influence the classification result; the correlation id is taken as a
parameter (the caller-supplied id, or the fresh uuid generated when absent). -/

/-- The structured HTTP response optionally carried by an axios-shaped
failure. A `none` status models a truthy response object whose `status`
property is absent or undefined, on which `status.toString()` throws. -/
structure AxiosResponse where
  status : Option Nat
  statusText : Option String
  data : Option Rec
  headers : Option Rec

/-- The raw failure value passed to `handleError`, split by the dispatch in
the source.

* `errorInstance`: any `Error` instance. It may additionally carry the axios
  payload (`isAxiosError`, a response, a request, a transport code, a config
  url) — a real `AxiosError` does — but the `instanceof Error` branch reads
  only `name` and `message` (plus `cause`/`stack` for details).
* `axiosObject`: a value that is not an `Error` instance but has
  `isAxiosError === true` (for example a hand-built plain object).
* `otherValue`: anything else; `stringRepr` is the result of `String(error)`
  when that conversion succeeds, and `none` when it throws. -/
inductive RawFailure where
  | errorInstance (name message : String) (isAxiosError : Bool)
      (response : Option AxiosResponse) (hasRequest : Bool)
      (code : Option String) (configUrl : Option String)
  | axiosObject (response : Option AxiosResponse) (hasRequest : Bool)
      (code : Option String) (message : String) (configUrl : Option String)
  | otherValue (stringRepr : Option String) (typeName : String)

/-- The classification-relevant part of `ErrorContext`. -/
structure ErrorContext where
  correlationId : String
  operation : String
deriving DecidableEq, Repr

/-- The `details` payload attached by the three processing paths. -/
inductive ErrorDetails where
  | fromError (originalMessage name : String)
  | fromAxios (httpStatus : Option Nat) (httpStatusText : Option String)
      (responseData : Option Rec) (requestUrl : Option String)
      (axiosCode : Option String) (headers : Option Rec)
  | fromUnknown (error : String) (typeName : String)

/-- The classified `MCPError` record (the diagnostic record of the spec).
`rallyErrorMessage` keeps the raw JavaScript value extracted from the
response body, since the source may return a non-string there. -/
structure MCPError where
  type : MCPErrorType
  severity : ErrorSeverity
  message : String
  details : ErrorDetails
  context : ErrorContext
  recovery : RecoveryOptions
  rallyErrorCode : Option String := none
  rallyErrorMessage : Option Rec := none

/-- JS truthiness of a modelled JSON value (`NaN` is out of scope since
numbers are integers here). -/
def truthy : Rec → Bool
  | .null => false
  | .bool b => b
  | .num n => n != 0
  | .str s => s != ""
  | .arr _ => true
  | .obj _ => true

/-- JS property access `o.k` on a modelled value: defined only on objects. -/
def getProp (r : Rec) (k : String) : Option Rec :=
  match r with
  | .obj entries => lookupMap entries k
  | _ => none

/-- JS `.length` of a value: arrays and strings have one. -/
def lengthOf : Rec → Option Nat
  | .arr items => some items.length
  | .str s => some s.length
  | _ => none

/-- JS `v[0]`: first array element, or first character of a string. -/
def indexZero : Rec → Option Rec
  | .arr (x :: _) => some x
  | .str s =>
    match s.data with
    | c :: _ => some (.str ⟨[c]⟩)
    | [] => none
  | _ => none

/-- `ErrorHandler.extractRallyErrorMessage`: Rally's error formats probed in
order (`QueryResult.Errors[0]`, `Errors[0]`, `error.message`, a plain string
body). The body never throws (optional chaining plus try/catch), so the
model is a total function. -/
def extractRallyErrorMessage (responseData : Option Rec) : Option Rec :=
  match responseData with
  | none => none
  | some d =>
    if truthy d = false then none
    else if ((((getProp d "QueryResult").bind (fun q => getProp q "Errors")).bind lengthOf).getD 0) > 0 then
      ((getProp d "QueryResult").bind (fun q => getProp q "Errors")).bind indexZero
    else if ((getProp d "Errors").bind lengthOf).getD 0 > 0 then
      (getProp d "Errors").bind indexZero
    else if (((getProp d "error").bind (fun e => getProp e "message")).map truthy).getD false then
      (getProp d "error").bind (fun e => getProp e "message")
    else
      match d with
      | .str s => some (.str s)
      | _ => none

/-- The `userMessages` table of `ErrorHandler.createUserFriendlyMessage`
(only these fourteen types have a fixed template; the `as Record` cast in the
source hides that the table is partial). -/
def userMessages : List (MCPErrorType × String) :=
  [ (.AUTHENTICATION_ERROR, "Authentication failed. Please check your Rally API key."),
    (.API_KEY_INVALID, "The provided Rally API key is invalid."),
    (.API_KEY_EXPIRED, "Your Rally API key has expired. Please renew it."),
    (.PERMISSION_ERROR, "You do not have permission to perform this operation."),
    (.NOT_FOUND_ERROR, "The requested resource was not found."),
    (.VALIDATION_ERROR, "The provided data is invalid."),
    (.RALLY_SERVICE_UNAVAILABLE, "Rally service is temporarily unavailable. Please try again later."),
    (.RALLY_RATE_LIMIT, "Rally API rate limit exceeded. Please wait before trying again."),
    (.CONNECTION_TIMEOUT, "Connection timeout. Please check your network connection."),
    (.NETWORK_ERROR, "Network error occurred. Please check your connection."),
    (.CIRCUIT_BREAKER_OPEN, "Service is temporarily unavailable due to repeated failures."),
    (.CONFIGURATION_ERROR, "Configuration error. Please check your settings."),
    (.INTERNAL_ERROR, "An internal error occurred. Please try again."),
    (.UNEXPECTED_ERROR, "An unexpected error occurred.") ]


/-- Template lookup keyed by error type (`userMessages[errorType]`; templates
are non-empty strings, so JS truthiness of the lookup is just presence). -/
def lookupUserMessage (t : MCPErrorType) : Option String :=
  (userMessages.find? (fun e => e.1 == t)).map (fun e => e.2)

/-- `ErrorHandler.createUserFriendlyMessage`. -/
def createUserFriendlyMessage (errorType : MCPErrorType) (originalMessage : String) : String :=
  match lookupUserMessage errorType with
  | some m => m
  | none => "Error: " ++ originalMessage

/-- `ErrorHandler.classifyError` for plain JavaScript errors: message/name
substring checks, then the network pattern table, then name-based checks,
then message-based authentication/permission checks, then `INTERNAL_ERROR`. -/
def classifyError (name message : String) : MCPErrorType :=
  let m : List Char := message.data.map Char.toLower
  let n : List Char := name.data.map Char.toLower
  if containsSub "validation".data n || containsSub "validation".data m then
    .VALIDATION_ERROR
  else
    match NETWORK_ERROR_PATTERNS.find? (fun p => testPattern p ⟨m⟩ || testPattern p ⟨n⟩) with
    | some p => p.errorType
    | none =>
      if containsSub "typeerror".data n then .DATA_TRANSFORMATION_ERROR
      else if containsSub "syntaxerror".data n then .SERIALIZATION_ERROR
      else if containsSub "authentication".data m || containsSub "unauthorized".data m then
        .AUTHENTICATION_ERROR
      else if containsSub "permission".data m || containsSub "forbidden".data m then
        .PERMISSION_ERROR
      else .INTERNAL_ERROR

/-- `ErrorHandler.classifyNetworkError`: first matching network pattern, with
`NETWORK_ERROR` as the fallback. -/
def classifyNetworkError (message : String) : MCPErrorType :=
  match NETWORK_ERROR_PATTERNS.find? (fun p => testPattern p message) with
  | some p => p.errorType
  | none => .NETWORK_ERROR

/-- `ErrorHandler.determineSeverity`: the Rally mapping whose type matches
wins; otherwise the switch of default severities. -/
def determineSeverity (errorType : MCPErrorType) : ErrorSeverity :=
  match RALLY_ERROR_MAPPINGS.find? (fun e => e.2.type == errorType) with
  | some e => e.2.severity
  | none =>
    match errorType with
    | .AUTHENTICATION_ERROR | .API_KEY_INVALID | .API_KEY_EXPIRED
    | .SSL_CERTIFICATE_ERROR | .CONFIGURATION_ERROR => .CRITICAL
    | .RALLY_SERVICE_UNAVAILABLE | .DNS_RESOLUTION_ERROR
    | .RESOURCE_EXHAUSTION => .HIGH
    | .VALIDATION_ERROR | .NOT_FOUND_ERROR | .RALLY_RATE_LIMIT
    | .CONNECTION_TIMEOUT => .MEDIUM
    | _ => .LOW

/-- `ErrorHandler.determineRecoveryStrategy`: the Rally mapping whose type
matches overrides the strategy of the default options for that type. -/
def determineRecoveryStrategy (errorType : MCPErrorType) : RecoveryOptions :=
  match RALLY_ERROR_MAPPINGS.find? (fun e => e.2.type == errorType) with
  | some e => { DEFAULT_RECOVERY_OPTIONS errorType with strategy := e.2.recovery }
  | none => DEFAULT_RECOVERY_OPTIONS errorType

/-- `ErrorHandler.getHttpErrorSeverity`. -/
def getHttpErrorSeverity (status : Nat) : ErrorSeverity :=
  if status ≥ 500 then .HIGH
  else if status ≥ 400 then .MEDIUM
  else .LOW

/-- `ErrorHandler.processError` for plain JavaScript errors. -/
def processError (name message : String) (context : ErrorContext) : MCPError :=
  let errorType := classifyError name message
  { type := errorType
    severity := determineSeverity errorType
    message := createUserFriendlyMessage errorType message
    details := .fromError message name
    context := context
    recovery := determineRecoveryStrategy errorType }

/-- `ErrorHandler.processAxiosError`: status-table classification when a
response is present, network-pattern classification when only a request went
out, and `CONFIGURATION_ERROR` for request-setup failures. The very first
statement of the response branch is `response.status.toString()`, so a
truthy response without a numeric status throws a TypeError, which
propagates (modelled as the `Except.error` case). -/
def processAxiosError (response : Option AxiosResponse) (hasRequest : Bool)
    (code : Option String) (message : String) (configUrl : Option String)
    (context : ErrorContext) : Except String MCPError :=
  match response with
  | some r =>
    match r.status with
    | none =>
      .error "TypeError: Cannot read properties of undefined (reading 'toString')"
    | some st =>
      let classification : MCPErrorType × ErrorSeverity :=
        match lookupMap RALLY_ERROR_MAPPINGS (toString st) with
        | some mapping => (mapping.type, mapping.severity)
        | none => (.RALLY_API_ERROR, getHttpErrorSeverity st)
      let errorType := classification.1
      .ok { type := errorType
            severity := classification.2
            message := createUserFriendlyMessage errorType message
            details := .fromAxios (some st) r.statusText r.data configUrl code r.headers
            context := context
            recovery := determineRecoveryStrategy errorType
            rallyErrorCode := some (toString st)
            rallyErrorMessage := extractRallyErrorMessage r.data }
  | none =>
    let errorType := if hasRequest then classifyNetworkError message else .CONFIGURATION_ERROR
    let severity : ErrorSeverity := if hasRequest then .HIGH else .MEDIUM
    .ok { type := errorType
          severity := severity
          message := createUserFriendlyMessage errorType message
          details := .fromAxios none none none configUrl code none
          context := context
          recovery := determineRecoveryStrategy errorType }

/-- `ErrorHandler.processUnknownError`: `String(error)` is evaluated while
building the details object; when the conversion throws (a value that cannot
be converted to a primitive), the exception propagates. -/
def processUnknownError (stringRepr : Option String) (typeName : String)
    (context : ErrorContext) : Except String MCPError :=
  match stringRepr with
  | none => .error "TypeError: Cannot convert object to primitive value"
  | some s =>
    .ok { type := .UNEXPECTED_ERROR
          severity := .HIGH
          message := "An unexpected error occurred"
          details := .fromUnknown s typeName
          context := context
          recovery := DEFAULT_RECOVERY_OPTIONS .UNEXPECTED_ERROR }

/-- `ErrorHandler.handleError`: the classification entry point.
`correlationId` is the caller-supplied id or the freshly generated uuid.
The `instanceof Error` test comes first, so an `Error` instance is processed
by `processError` even when it carries the axios payload; `handleError` has
no exception handler of its own, so a throw inside a processing path
propagates to the caller (the `Except.error` case). -/
def handleError (error : RawFailure) (operation : String) (correlationId : String) :
    Except String MCPError :=
  let context : ErrorContext := { correlationId := correlationId, operation := operation }
  match error with
  | .errorInstance name message _ _ _ _ _ => .ok (processError name message context)
  | .axiosObject response hasRequest code message configUrl =>
      processAxiosError response hasRequest code message configUrl context
  | .otherValue stringRepr typeName => processUnknownError stringRepr typeName context

/-- Category of a classification outcome (`none` when the source threw). -/
def resultType (r : Except String MCPError) : Option MCPErrorType :=
  r.toOption.map MCPError.type

/-- Severity of a classification outcome. -/
def resultSeverity (r : Except String MCPError) : Option ErrorSeverity :=
  r.toOption.map MCPError.severity

/-- User-facing message of a classification outcome. -/
def resultMessage (r : Except String MCPError) : Option String :=
  r.toOption.map MCPError.message

/-- Recovery strategy of a classification outcome. -/
def resultStrategy (r : Except String MCPError) : Option RecoveryStrategy :=
  r.toOption.map (fun e => e.recovery.strategy)

/-- Recovery `maxRetries` of a classification outcome. -/
def resultMaxRetries (r : Except String MCPError) : Option Nat :=
  r.toOption.bind (fun e => e.recovery.maxRetries)

/-! ## Auxiliary vocabulary definitions -/

/-- Whether a message matches one of the generic network-failure patterns of
`NETWORK_ERROR_PATTERNS`. -/
def matchesNetworkPattern (message : String) : Bool :=
  NETWORK_ERROR_PATTERNS.any (fun p => testPattern p message)

/-- Kind tag of a `getFieldMappings` entry. -/
inductive FieldMappingKind where
  | standard
  | custom
  | metadata
deriving DecidableEq, Repr

/-- One value of the `getFieldMappings` table. -/
structure FieldMappingEntry where
  rallyField : String
  mcpField : String
  type : FieldMappingKind
deriving DecidableEq, Repr

/-- `DataTransformer.getFieldMappings`: the known field mappings for Rally
artifacts, in source order. -/
def getFieldMappings : List (String × FieldMappingEntry) :=
  [ ("FormattedID", ⟨"FormattedID", "formatted-id", .standard⟩),
    ("Name", ⟨"Name", "name", .standard⟩),
    ("Description", ⟨"Description", "description", .standard⟩),
    ("PlanEstimate", ⟨"PlanEstimate", "plan-estimate", .standard⟩),
    ("ScheduleState", ⟨"ScheduleState", "schedule-state", .standard⟩),
    ("Owner", ⟨"Owner", "owner", .standard⟩),
    ("Project", ⟨"Project", "project", .standard⟩),
    ("Iteration", ⟨"Iteration", "iteration", .standard⟩),
    ("Severity", ⟨"Severity", "severity", .standard⟩),
    ("State", ⟨"State", "state", .standard⟩),
    ("FoundInBuild", ⟨"FoundInBuild", "found-in-build", .standard⟩),
    ("FixedInBuild", ⟨"FixedInBuild", "fixed-in-build", .standard⟩),
    ("Resolution", ⟨"Resolution", "resolution", .standard⟩),
    ("WorkProduct", ⟨"WorkProduct", "work-product", .standard⟩),
    ("Estimate", ⟨"Estimate", "estimate", .standard⟩),
    ("ToDo", ⟨"ToDo", "todo", .standard⟩),
    ("Actuals", ⟨"Actuals", "actuals", .standard⟩),
    ("_ref", ⟨"_ref", "metadata-ref", .metadata⟩),
    ("_refObjectName", ⟨"_refObjectName", "metadata-ref-object-name", .metadata⟩),
    ("_type", ⟨"_type", "metadata-type", .metadata⟩),
    ("_refObjectUUID", ⟨"_refObjectUUID", "metadata-ref-object-uuid", .metadata⟩),
    ("ObjectID", ⟨"ObjectID", "object-id", .standard⟩),
    ("CreationDate", ⟨"CreationDate", "creation-date", .standard⟩),
    ("LastUpdateDate", ⟨"LastUpdateDate", "last-update-date", .standard⟩) ]

/-- The external (Rally-side) vocabulary the system is contracted to support:
every Rally field name of `getFieldMappings`, plus the custom-field examples
from the transformer's own documentation (`c_MyCustomField`) and the spec's
concrete record example (`c_CustomPriority`). -/
def knownRallyFieldNames : List String :=
  (getFieldMappings.map (fun e => e.2.rallyField)) ++ ["c_MyCustomField", "c_CustomPriority"]

/-- Helper: when an error type has an entry in the template table, the
rendered user message is exactly that template, whatever the original
message was. -/
theorem cufm_of_template (t : MCPErrorType) (orig tmpl : String)
    (h : lookupUserMessage t = some tmpl) : createUserFriendlyMessage t orig = tmpl := by
  unfold createUserFriendlyMessage
  rw [h]

/-! ## Claim theorems -/

/-- C1 counterexample: an `Error` instance carrying a structured 401
response — the shape axios actually throws, since `AxiosError` extends
`Error` — with a connection-refused message is dispatched by the
`instanceof Error` branch to message-pattern classification: the result is
`NETWORK_ERROR`, not `AUTHENTICATION_ERROR`, so status precedence fails on
a failure squarely carrying an HTTP 401 response. -/
theorem c1_error_instance_ignores_status :
    resultType (handleError
        (.errorInstance "Error" "connect ECONNREFUSED 10.0.0.1:443" true
          (some (AxiosResponse.mk (some 401) (some "Unauthorized") none none)) false
          (some "ECONNREFUSED") none)
        "getUserStory" "cid-1") = some .NETWORK_ERROR ∧
    MCPErrorType.NETWORK_ERROR ≠ MCPErrorType.AUTHENTICATION_ERROR := by decide

/-- C1 amended: status precedence holds only on the axios-processing branch:
for a raw failure that is not an `Error` instance, carries a structured HTTP
response with numeric status 401, and whose message also matches a generic
network-failure pattern, classification returns `AUTHENTICATION_ERROR` from
the status table, not `network` — whereas an `Error`-instance failure is
classified by its message alone and its HTTP status is ignored. -/
theorem c1_status_mapping_precedes_network_pattern
    (stx : Option String) (d hdrs : Option Rec) (hasRequest : Bool)
    (code : Option String) (message : String) (configUrl : Option String) (op cid : String)
    (hpat : matchesNetworkPattern message = true) :
    resultType (handleError
        (.axiosObject (some (AxiosResponse.mk (some 401) stx d hdrs)) hasRequest code
          message configUrl) op cid) = some .AUTHENTICATION_ERROR := by
  simp only [handleError, processAxiosError,
    show lookupMap RALLY_ERROR_MAPPINGS (toString (401 : Nat))
        = some ⟨.AUTHENTICATION_ERROR, .HIGH, .USER_INTERVENTION⟩ from rfl]
  rfl

/-- Witness for C1's amended theorem: a non-Error 401 failure whose message
is a connection-refused network error still classifies as
`AUTHENTICATION_ERROR`. -/
theorem c1_witness :
    matchesNetworkPattern "connect ECONNREFUSED 10.0.0.1:443" = true ∧
    resultType (handleError
        (.axiosObject (some (AxiosResponse.mk (some 401) (some "Unauthorized") none none))
          false (some "ECONNREFUSED") "connect ECONNREFUSED 10.0.0.1:443" none)
        "getUserStory" "cid-5") = some .AUTHENTICATION_ERROR :=
  ⟨by decide,
    c1_status_mapping_precedes_network_pattern
      (some "Unauthorized") none none false (some "ECONNREFUSED")
      "connect ECONNREFUSED 10.0.0.1:443" none "getUserStory" "cid-5" (by decide)⟩

/-- C2 counterexample: `todo` is a key of the irregular mapping table, yet
the round trip internal → external → internal sends it to `to-do`, not back
to itself, so the claimed bijection law fails on the table's own keys. -/
theorem c2_roundtrip_counterexample :
    lookupMap specialCases "todo" = some "ToDo" ∧
    rallyFieldToMcp (mcpFieldToRally "todo") = "to-do" ∧
    ("to-do" : String) ≠ "todo" := by decide

/-- C2 amended: the round-trip laws hold on the supported vocabulary minus
the two alias keys: internal → external → internal is the identity on every
key of the irregular table except the aliases `todo` and `apiintegration`,
and external → internal → external is the identity on every known Rally
field name (the `getFieldMappings` vocabulary and the documented custom
fields). -/
theorem c2_roundtrip_on_supported_vocabulary :
    (((specialCases.map Prod.fst).filter
        (fun k => k != "todo" && k != "apiintegration")).all
      (fun f => rallyFieldToMcp (mcpFieldToRally f) == f)) = true ∧
    ((knownRallyFieldNames.all
      (fun g => mcpFieldToRally (rallyFieldToMcp g) == g)) = true) := by decide

/-- C3 counterexample: a `TypeError` classifies as
`DATA_TRANSFORMATION_ERROR`, which has no entry in the fixed template table,
so the user-facing message is `Error: ` followed by the raw exception text —
the original text `boom` is a substring of the rendered message, refuting
the claim that the message is always a fixed template free of raw text. -/
theorem c3_message_leaks_exception_text :
    resultType (handleError (.errorInstance "TypeError" "boom" false none false none none)
        "transform" "cid-2") = some .DATA_TRANSFORMATION_ERROR ∧
    lookupUserMessage .DATA_TRANSFORMATION_ERROR = none ∧
    resultMessage (handleError (.errorInstance "TypeError" "boom" false none false none none)
        "transform" "cid-2") = some "Error: boom" ∧
    containsSub "boom".data ("Error: boom").data = true := by decide

/-- C3 amended: whenever the classified category of an exception or
transport failure has an entry in the fixed template table, the user-facing
message is exactly that template — a fixed string independent of the raw
failure's response body, headers, or exception text — and a non-error thrown
value whose string conversion succeeds always renders the constant
unexpected-error message (without the trailing period of its table entry);
only categories missing from the table fall back to `Error: ` plus the
original exception message. -/
theorem c3_templated_message_is_fixed :
    (∀ n m isAx resp req code url op cid tmpl,
      (resultType (handleError (.errorInstance n m isAx resp req code url) op cid)).bind
          lookupUserMessage = some tmpl →
      resultMessage (handleError (.errorInstance n m isAx resp req code url) op cid)
        = some tmpl) ∧
    (∀ resp req code msg url op cid tmpl,
      (resultType (handleError (.axiosObject resp req code msg url) op cid)).bind
          lookupUserMessage = some tmpl →
      resultMessage (handleError (.axiosObject resp req code msg url) op cid)
        = some tmpl) ∧
    (∀ s t op cid,
      resultMessage (handleError (.otherValue (some s) t) op cid)
        = some "An unexpected error occurred") := by
  refine ⟨fun n m isAx resp req code url op cid tmpl h => ?_,
    fun resp req code msg url op cid tmpl h => ?_, fun s t op cid => rfl⟩
  · exact congrArg some (cufm_of_template _ m _ h)
  · match resp with
    | none =>
      cases req with
      | true => exact congrArg some (cufm_of_template _ msg _ h)
      | false => exact congrArg some (cufm_of_template _ msg _ h)
    | some (AxiosResponse.mk none stx d hd) => exact Option.noConfusion h
    | some (AxiosResponse.mk (some st) stx d hd) =>
      exact congrArg some (cufm_of_template _ msg _ h)

/-- Witness for C3's amended theorem: a non-Error 401 failure renders the
fixed authentication template. -/
theorem c3_witness :
    (resultType (handleError
        (.axiosObject (some (AxiosResponse.mk (some 401) (some "Unauthorized") none none))
          false none "Request failed with status code 401" none) "query" "cid-3")).bind
        lookupUserMessage
      = some "Authentication failed. Please check your Rally API key." ∧
    resultMessage (handleError
        (.axiosObject (some (AxiosResponse.mk (some 401) (some "Unauthorized") none none))
          false none "Request failed with status code 401" none) "query" "cid-3")
      = some "Authentication failed. Please check your Rally API key." :=
  ⟨by decide,
    c3_templated_message_is_fixed.2.1
      (some (AxiosResponse.mk (some 401) (some "Unauthorized") none none))
      false none "Request failed with status code 401" none
      "query" "cid-3" "Authentication failed. Please check your Rally API key." (by decide)⟩

/-- C4 counterexample: the claim fails twice. A non-Error transport failure
with HTTP status 401 is classified with severity `HIGH`, not `CRITICAL` —
the `401` row of `RALLY_ERROR_MAPPINGS` carries `HIGH`. And an `Error`
instance carrying a 401 response (the shape axios throws) bypasses the
status table entirely: its generic message classifies it as
`INTERNAL_ERROR` with severity `LOW` and recovery `RETRY`, not
require-intervention. -/
theorem c4_401_severity_counterexample :
    resultSeverity (handleError
        (.axiosObject (some (AxiosResponse.mk (some 401) (some "Unauthorized") none none))
          false none "Request failed with status code 401" none)
        "getDefect" "cid-4") = some .HIGH ∧
    ErrorSeverity.HIGH ≠ ErrorSeverity.CRITICAL ∧
    resultType (handleError
        (.errorInstance "Error" "Request failed with status code 401" true
          (some (AxiosResponse.mk (some 401) (some "Unauthorized") none none)) false
          none none)
        "getDefect" "cid-6") = some .INTERNAL_ERROR ∧
    resultSeverity (handleError
        (.errorInstance "Error" "Request failed with status code 401" true
          (some (AxiosResponse.mk (some 401) (some "Unauthorized") none none)) false
          none none)
        "getDefect" "cid-6") = some .LOW ∧
    resultStrategy (handleError
        (.errorInstance "Error" "Request failed with status code 401" true
          (some (AxiosResponse.mk (some 401) (some "Unauthorized") none none)) false
          none none)
        "getDefect" "cid-6") = some .RETRY := by decide

/-- C4 amended: every non-Error transport failure carrying a numeric HTTP
status 401 is classified with severity `HIGH` and recovery strategy
`USER_INTERVENTION` (require-intervention), whatever its body, headers,
message or context — the `401` status row overrides the generic category
defaults for the strategy but assigns `HIGH`, not `CRITICAL`, severity;
`Error`-instance failures bypass the status table and are classified by
message alone. -/
theorem c4_401_high_severity_user_intervention
    (stx : Option String) (d hdrs : Option Rec) (hasRequest : Bool) (code : Option String)
    (message : String) (configUrl : Option String) (op cid : String) :
    resultSeverity (handleError (.axiosObject (some (AxiosResponse.mk (some 401) stx d hdrs))
        hasRequest code message configUrl) op cid) = some .HIGH ∧
    resultStrategy (handleError (.axiosObject (some (AxiosResponse.mk (some 401) stx d hdrs))
        hasRequest code message configUrl) op cid) = some .USER_INTERVENTION := by
  simp only [handleError, processAxiosError,
    show lookupMap RALLY_ERROR_MAPPINGS (toString (401 : Nat))
        = some ⟨.AUTHENTICATION_ERROR, .HIGH, .USER_INTERVENTION⟩ from rfl]
  exact ⟨by trivial, by trivial⟩

/-- C5: the never-throws contract fails in the code. A truthy response
without a numeric status makes the response branch throw at
`response.status.toString()` before any classification, and a value whose
`String(error)` conversion throws makes `processUnknownError` throw while
building its details; `handleError` has no catch-all, so both exceptions
propagate instead of degrading to the `unexpected` category. A non-error
value whose string conversion succeeds does degrade as specified. -/
theorem c5_throws_on_malformed_input :
    handleError (.axiosObject (some (AxiosResponse.mk none none none none)) false none
        "Request failed" none) "getTask" "cid-7"
      = .error "TypeError: Cannot read properties of undefined (reading 'toString')" ∧
    handleError (.otherValue none "object") "getTask" "cid-8"
      = .error "TypeError: Cannot convert object to primitive value" ∧
    resultType (handleError (.otherValue (some "42") "number") "getTask" "cid-9")
      = some .UNEXPECTED_ERROR ∧
    resultMessage (handleError (.otherValue (some "42") "number") "getTask" "cid-9")
      = some "An unexpected error occurred" ∧
    resultStrategy (handleError (.otherValue (some "42") "number") "getTask" "cid-9")
      = some .FAIL_FAST :=
  ⟨rfl, rfl, rfl, rfl, rfl⟩

/-- C6: the structural transforms are total functions that return primitives
unchanged and preserve empty objects and empty arrays as empty structures of
the same kind, in both directions. -/
theorem c6_primitives_and_empties_preserved :
    (∀ s : String, rallyToMcp (.str s) = .str s) ∧
    (∀ n : Int, rallyToMcp (.num n) = .num n) ∧
    (∀ b : Bool, rallyToMcp (.bool b) = .bool b) ∧
    rallyToMcp .null = .null ∧
    rallyToMcp (.obj []) = .obj [] ∧
    rallyToMcp (.arr []) = .arr [] ∧
    (∀ s : String, mcpToRally (.str s) = .str s) ∧
    (∀ n : Int, mcpToRally (.num n) = .num n) ∧
    (∀ b : Bool, mcpToRally (.bool b) = .bool b) ∧
    mcpToRally .null = .null ∧
    mcpToRally (.obj []) = .obj [] ∧
    mcpToRally (.arr []) = .arr [] :=
  ⟨fun _ => rfl, fun _ => rfl, fun _ => rfl, rfl, rfl, rfl,
    fun _ => rfl, fun _ => rfl, fun _ => rfl, rfl, rfl, rfl⟩

/-- C7: prefix handling comes first in both directions. The three record
examples hold, and in general a leading underscore maps to the `metadata-`
prefix, a leading `c_` maps to the `custom-` prefix, and the reverse
direction restores exactly those markers. -/
theorem c7_prefix_handling :
    rallyToMcp (.obj [("_ref", .str "X")]) = .obj [("metadata-ref", .str "X")] ∧
    rallyToMcp (.obj [("c_Foo", .str "Y")]) = .obj [("custom-foo", .str "Y")] ∧
    mcpToRally (.obj [("metadata-ref-object-uuid", .str "Z")])
      = .obj [("_refObjectUUID", .str "Z")] ∧
    (∀ rest : List Char,
      rallyFieldToMcpL ('_' :: rest) = "metadata-".data ++ camelToKebabL rest) ∧
    (∀ rest : List Char,
      rallyFieldToMcpL ('c' :: '_' :: rest) = "custom-".data ++ camelToKebabL rest) ∧
    (∀ rest : List Char,
      mcpFieldToRallyL ("metadata-".data ++ rest)
        = '_' :: (kebabToRallySpecialCase ⟨rest⟩).data) ∧
    (∀ rest : List Char,
      mcpFieldToRallyL ("custom-".data ++ rest)
        = 'c' :: '_' :: (kebabToRallySpecialCase ⟨rest⟩).data) :=
  ⟨rfl, rfl, rfl, fun _ => rfl, fun _ => rfl, fun _ => rfl, fun _ => rfl⟩

/-- C8: the word-split turns `APIIntegration` into `api-integration`
(uppercase runs split before their final letter), and the irregular table —
not the generic PascalCase reconstruction, which would produce
`ApiIntegration` — maps `api-integration` back to `APIIntegration`. -/
theorem c8_acronym_handling :
    rallyFieldToMcp "APIIntegration" = "api-integration" ∧
    mcpFieldToRally "api-integration" = "APIIntegration" ∧
    kebabToPascal "api-integration" = "ApiIntegration" ∧
    ("ApiIntegration" : String) ≠ "APIIntegration" := by decide

/-- C9 counterexample: an `Error` instance carrying a 429 response (the
shape axios throws) is routed by the `instanceof Error` dispatch to
message-pattern classification: its generic message yields `INTERNAL_ERROR`
with recovery `RETRY`, not `RALLY_RATE_LIMIT` with `RETRY_WITH_BACKOFF`, so
the claim fails on part of its `every raw failure carrying HTTP status 429`
domain. -/
theorem c9_error_instance_429_counterexample :
    resultType (handleError
        (.errorInstance "Error" "Request failed with status code 429" true
          (some (AxiosResponse.mk (some 429) (some "Too Many Requests") none none)) false
          none none)
        "createStory" "cid-10") = some .INTERNAL_ERROR ∧
    MCPErrorType.INTERNAL_ERROR ≠ MCPErrorType.RALLY_RATE_LIMIT ∧
    resultStrategy (handleError
        (.errorInstance "Error" "Request failed with status code 429" true
          (some (AxiosResponse.mk (some 429) (some "Too Many Requests") none none)) false
          none none)
        "createStory" "cid-10") = some .RETRY ∧
    RecoveryStrategy.RETRY ≠ RecoveryStrategy.RETRY_WITH_BACKOFF := by decide

/-- C9 amended: every non-Error transport failure with a numeric HTTP status
429 and no body classifies as `RALLY_RATE_LIMIT` with recovery strategy
`RETRY_WITH_BACKOFF` and a strictly positive `maxRetries`; an
`Error`-instance failure carrying a 429 response bypasses the status table
and is classified by message alone. -/
theorem c9_rate_limit_backoff
    (stx : Option String) (hdrs : Option Rec) (hasRequest : Bool) (code : Option String)
    (message : String) (configUrl : Option String) (op cid : String) :
    resultType (handleError (.axiosObject (some (AxiosResponse.mk (some 429) stx none hdrs))
        hasRequest code message configUrl) op cid) = some .RALLY_RATE_LIMIT ∧
    resultStrategy (handleError (.axiosObject (some (AxiosResponse.mk (some 429) stx none hdrs))
        hasRequest code message configUrl) op cid) = some .RETRY_WITH_BACKOFF ∧
    ∃ n, resultMaxRetries (handleError (.axiosObject
        (some (AxiosResponse.mk (some 429) stx none hdrs)) hasRequest code message configUrl)
        op cid) = some n ∧ 0 < n := by
  simp only [handleError, processAxiosError,
    show lookupMap RALLY_ERROR_MAPPINGS (toString (429 : Nat))
        = some ⟨.RALLY_RATE_LIMIT, .MEDIUM, .RETRY_WITH_BACKOFF⟩ from rfl]
  refine ⟨by trivial, by trivial, 5, by trivial, by decide⟩

/-- C10: the external-direction field mapping is not injective — `todo` and
`to-do` both map to `ToDo`, `apiintegration` and `api-integration` both map
to `APIIntegration` — so two distinct internal records transform to the same
external record. -/
theorem c10_external_mapping_not_injective :
    mcpFieldToRally "todo" = "ToDo" ∧
    mcpFieldToRally "to-do" = "ToDo" ∧
    ("todo" : String) ≠ "to-do" ∧
    mcpFieldToRally "apiintegration" = "APIIntegration" ∧
    mcpFieldToRally "api-integration" = "APIIntegration" ∧
    ("apiintegration" : String) ≠ "api-integration" ∧
    mcpToRally (.obj [("todo", .str "v")]) = mcpToRally (.obj [("to-do", .str "v")]) ∧
    Rec.obj [("todo", .str "v")] ≠ Rec.obj [("to-do", .str "v")] := by
  refine ⟨by decide, by decide, by decide, by decide, by decide, by decide, rfl, ?_⟩
  intro h
  have h1 : [(("todo" : String), Rec.str "v")] = [("to-do", Rec.str "v")] := by injection h
  have h2 : (("todo" : String), Rec.str "v") = ("to-do", Rec.str "v") := by injection h1
  have h3 : ("todo" : String) = "to-do" := congrArg Prod.fst h2
  exact absurd h3 (by decide)

end McpRally
